import Mathlib

/-
Shallow embedding of the Trusty-cogs repository sources under verification:
  src/twitch/twitch_api.py  (class TwitchAPI)
  src/hockey/menu.py        (classes GamesMenu, BaseMenu and page sources)

Modelling conventions:
  - async methods become pure functions; awaited network calls and the
    persisted configuration store become explicit oracle fields of an
    environment record (`TwitchEnv`) returning `Except TErr _` values.
  - Python exceptions become the `TErr` / `MenuErr` error types carried by
    `Except`; a `try/except` is a `match` on that value.
  - Python's `set` of integer reset timestamps is modelled as a `List Nat`
    recording one iteration order of the set (CPython specifies no order;
    `list(s)[0]` picks the first element of that order, which need not be
    the minimum — e.g. in CPython `list({8, 1})` is `[8, 1]`).
  - `time.time()` instants and datetimes are natural numbers; the float
    literal `0.1` added to a sleep duration is the rational `1 / 10`
    (Python's binary float `0.1` is slightly above `1 / 10`, so every wait
    modelled here is a lower bound on the real wait).
  - Discord message sends are modelled as emitted notice records; the send
    itself is assumed not to raise (network failures of discord sends are
    outside the model).  The `AttributeError` raised by evaluating
    `account.display_name` on a dict (twitch_api.py line 267) and the
    `NameError` from using the unbound local `profile` (line 254 after the
    `except` at 249) are modelled explicitly, since they are reachable.
-/

/-- Rate-limit bookkeeping fields of the `TwitchAPI` class
(twitch_api.py lines 29-36): `rate_limit_remaining` and the set
`rate_limit_resets`, the latter as a list in iteration order. -/
structure RLState where
  rate_limit_remaining : Nat
  rate_limit_resets : List Nat
  deriving DecidableEq, Repr

/-- Embedding of `TwitchAPI.wait_for_rate_limit_reset` (twitch_api.py lines 59-73).
If the remaining counter is zero the reset set is rebuilt keeping only
timestamps strictly greater than `current_time`; if the rebuilt set is
nonempty, `reset_time = list(self.rate_limit_resets)[0]` (the first element
of the iteration order, here the list head) and the coroutine sleeps
`reset_time - current_time + 0.1`.  Returns the new state and the sleep
duration requested, `none` when no sleep happens. -/
def TwitchAPI.wait_for_rate_limit_reset (st : RLState) (current_time : Nat) :
    RLState × Option ℚ :=
  if st.rate_limit_remaining = 0 then
    let pruned := st.rate_limit_resets.filter (fun x => decide (current_time < x))
    if 0 < pruned.length then
      let reset_time := pruned.headD 0
      ({ st with rate_limit_resets := pruned },
        some ((reset_time : ℚ) - (current_time : ℚ) + 1 / 10))
    else
      ({ st with rate_limit_resets := pruned }, none)
  else (st, none)

/-- One HTTP response as seen by `TwitchAPI.get_response`: status code, the
optional `Ratelimit-Remaining` and `Ratelimit-Reset` headers, and the parsed
JSON body (abstracted to a number). -/
structure HttpResp where
  status : Nat
  ratelimit_remaining : Option Nat
  ratelimit_reset : Option Nat
  body : Nat
  deriving DecidableEq, Repr

/-- The observable steps `TwitchAPI.get_response` performs on each attempt
(twitch_api.py lines 120-140): `await self.oauth_check()`,
`await self.get_header()`, `await self.wait_for_rate_limit_reset()`, then
the GET request of the numbered attempt. -/
inductive Step where
  | oauth_check : Step
  | get_header : Step
  | rl_wait : Step
  | request : Nat → Step
  deriving DecidableEq, Repr

/-- Header processing inside `get_response` (twitch_api.py lines 129-134):
if `Ratelimit-Remaining` is present it overwrites the counter; if
`Ratelimit-Reset` is present it is added to the reset set (list model:
appended unless already present). -/
def TwitchAPI.update_rl (st : RLState) (r : HttpResp) : RLState :=
  let st1 := match r.ratelimit_remaining with
    | some n => { st with rate_limit_remaining := n }
    | none => st
  match r.ratelimit_reset with
  | some t =>
      { st1 with rate_limit_resets :=
          if t ∈ st1.rate_limit_resets then st1.rate_limit_resets
          else st1.rate_limit_resets ++ [t] }
  | none => st1

/-- Embedding of `TwitchAPI.get_response` (twitch_api.py lines 120-140).  `env` maps the
attempt number to the HTTP response observed on that attempt.  Each attempt
records its steps in the trace, updates the rate-limit state from the
response headers, and on status 429 recurses into a fresh full call
(`return await self.get_response(url)`); otherwise the body is returned.
The Python recursion has no base case, so the embedding carries `fuel`:
running out of fuel (result `none`) models the call still spinning. -/
def TwitchAPI.get_response (env : Nat → HttpResp) :
    Nat → Nat → RLState → List Step → List Step × RLState × Option Nat
  | 0, _, st, tr => (tr, st, none)
  | fuel + 1, attempt, st, tr =>
    let tr2 := tr ++ [Step.oauth_check, Step.get_header, Step.rl_wait,
      Step.request attempt]
    let resp := env attempt
    let st2 := TwitchAPI.update_rl st resp
    if resp.status = 429 then
      TwitchAPI.get_response env fuel (attempt + 1) st2 tr2
    else
      (tr2, st2, some resp.body)

/-- The four steps of attempt number `k` of `get_response`. -/
def attempt_steps (k : Nat) : List Step :=
  [Step.oauth_check, Step.get_header, Step.rl_wait, Step.request k]

/-- The concatenated steps of `m` consecutive `get_response` attempts
starting at attempt number `k`. -/
def trace_from (k : Nat) : Nat → List Step
  | 0 => []
  | m + 1 => attempt_steps k ++ trace_from (k + 1) m

/-- URL assembly of `TwitchAPI.get_new_clips` (twitch_api.py lines 201-211)
as a list of query parameters.  The base query carries only
`broadcaster_id`; only when `started_at` is supplied are
`started_at=<started_at.isoformat()>Z` and
`ended_at=<datetime.utcnow().isoformat()>Z` appended.  Datetimes are
numbers and `isoformat()` is `toString`. -/
def TwitchAPI.get_new_clips_params (user_id : String) (started_at : Option Nat)
    (now : Nat) : List (String × String) :=
  let base := [("broadcaster_id", user_id)]
  match started_at with
  | some t => base ++
      [("started_at", toString t ++ "Z"), ("ended_at", toString now ++ "Z")]
  | none => base

/-- The fields of a twitch profile that the follower-check path reads
(twitch_profile.py is a plain record; only these fields matter here). -/
structure TwitchProfile where
  id : String
  login : String
  display_name : String
  deriving DecidableEq, Repr

/-- A follower record as parsed by `TwitchFollower.from_json`; the
follower-check path reads only `from_id`. -/
structure TwitchFollower where
  from_id : String
  deriving DecidableEq, Repr

/-- A clip dict from the clips endpoint; the clip-check path reads only
`id` and `url`. -/
structure TwitchClip where
  id : String
  url : String
  deriving DecidableEq, Repr

/-- The permissions of a destination discord channel that the twitch
notification paths consult: `embed_links` (check_followers) and
`send_messages` (send_clips_update). -/
structure DChannel where
  embed_links : Bool
  send_messages : Bool
  deriving DecidableEq, Repr

/-- Python exceptions reachable in the follower/clip checking paths:
an upstream fetch failure, the `NameError` from reading the unbound local
`profile` (twitch_api.py line 254 when the `except` at 249 fired on the
first unrecorded follower), and the `AttributeError` from
`account.display_name` on a dict (line 267). -/
inductive TErr where
  | fetch : TErr
  | name_error : TErr
  | attr_error : TErr
  deriving DecidableEq, Repr

/-- Oracle environment for the polling subsystem: the awaited network
calls of `TwitchAPI` and the host's channel lookup.  Each oracle is a
function of the request argument, so one value of this record describes
one upstream behaviour. -/
structure TwitchEnv where
  get_profile_from_id : String → Except TErr TwitchProfile
  get_new_followers : String → Except TErr (List TwitchFollower × Nat)
  get_new_clips : String → Except TErr (List TwitchClip)
  get_channel : Nat → Option DChannel

/-- A followed-account record from the `twitch_accounts` configuration key:
external id, the recorded (already notified) follower ids, and the
destination channel ids. -/
structure TwitchAccount where
  id : String
  followers : List String
  channels : List Nat
  deriving DecidableEq, Repr

/-- A tracked-clip record from the `twitch_clips` configuration key. -/
structure ClipData where
  display_name : String
  clips : List String
  channels : List Nat
  deriving DecidableEq, Repr

/-- One follower notification actually sent to a channel: the channel id,
the id of the profile rendered in the message (the `profile` local of
`check_followers`, which is what the embed announces as the new follower),
and whether it was the embed or the plain-text form. -/
structure FollowNotice where
  channel : Nat
  profile_id : String
  embed : Bool
  deriving DecidableEq, Repr

/-- One clip notification actually sent to a channel. -/
structure ClipNotice where
  channel : Nat
  url : String
  deriving DecidableEq, Repr

/-- The channel fan-out inside `check_followers` (twitch_api.py lines
258-269): for each channel id, a missing channel is skipped; a channel with
`embed_links` gets the embed built from `profile`; otherwise the plain-text
message is built from `account.display_name` — but `account` is a dict, so
that attribute access raises `AttributeError`, aborting the fan-out (no send
for that channel and none after it). -/
def TwitchAPI.follow_send_loop (env : TwitchEnv) (profile : TwitchProfile) :
    List Nat → List FollowNotice × Option TErr
  | [] => ([], none)
  | cid :: rest =>
    match env.get_channel cid with
    | none => TwitchAPI.follow_send_loop env profile rest
    | some ch =>
      if ch.embed_links then
        let (ns, e) := TwitchAPI.follow_send_loop env profile rest
        (⟨cid, profile.id, true⟩ :: ns, e)
      else
        ([], some TErr.attr_error)

/-- The `for follow in reversed(followers)` loop of `check_followers`
(twitch_api.py lines 245-273).  State threaded through iterations: the
account record (its `followers` list is mutated in place and written back
to the configuration store inside the loop body, so later membership tests
see the appended ids) and the Python local variable `profile`
(`Option TwitchProfile`, `none` = not yet bound).  A failed profile fetch
is logged and execution falls through: `profile` keeps its previous value,
or using it raises `NameError` when it was never bound.  Returns the
notifications sent (kept even when an error aborts the loop) and either the
final account record or the propagated exception. -/
def TwitchAPI.follow_loop (env : TwitchEnv) :
    List TwitchFollower → TwitchAccount → Option TwitchProfile →
      List FollowNotice × Except TErr TwitchAccount
  | [], account, _ => ([], .ok account)
  | f :: rest, account, last_profile =>
    if f.from_id ∈ account.followers then
      TwitchAPI.follow_loop env rest account last_profile
    else
      let profile? : Option TwitchProfile :=
        match env.get_profile_from_id f.from_id with
        | .ok p => some p
        | .error _ => last_profile
      match profile? with
      | none => ([], .error TErr.name_error)
      | some profile =>
        match TwitchAPI.follow_send_loop env profile account.channels with
        | (ns, some e) => (ns, .error e)
        | (ns, none) =>
          let account' :=
            { account with followers := account.followers ++ [f.from_id] }
          let (ns2, r) := TwitchAPI.follow_loop env rest account' (some profile)
          (ns ++ ns2, r)

/-- Embedding of `TwitchAPI.check_followers` (twitch_api.py lines 242-273): fetch the
followed account's profile and its current follower list (either failure
propagates — there is no handler here), then run the reversed-order loop
starting with the recorded follower set and an unbound `profile` local. -/
def TwitchAPI.check_followers (env : TwitchEnv) (account : TwitchAccount) :
    List FollowNotice × Except TErr TwitchAccount :=
  match env.get_profile_from_id account.id with
  | .error e => ([], .error e)
  | .ok _followed =>
    match env.get_new_followers account.id with
    | .error e => ([], .error e)
    | .ok (followers, _total) =>
      TwitchAPI.follow_loop env followers.reverse account none

/-- Embedding of `TwitchAPI.send_clips_update` (twitch_api.py lines 275-282): sends the
clip message to every registered channel that exists and permits
`send_messages`. -/
def TwitchAPI.send_clips_update (env : TwitchEnv) (clip : TwitchClip)
    (clip_data : ClipData) : List ClipNotice :=
  clip_data.channels.filterMap (fun cid =>
    match env.get_channel cid with
    | some ch => if ch.send_messages then some ⟨cid, clip.url⟩ else none
    | none => none)

/-- The inner clip loop of `check_clips` (twitch_api.py lines 295-299).
`snapshot` is the `clip_data` value read from the configuration at the top
of `check_clips` — the membership test uses this snapshot, which does NOT
grow as ids are appended, because the appends go to the store copy
(`saved`), modelled by `stored`. -/
def TwitchAPI.clip_loop (env : TwitchEnv) :
    List TwitchClip → ClipData → ClipData → List ClipNotice × ClipData
  | [], _snapshot, stored => ([], stored)
  | c :: rest, snapshot, stored =>
    if c.id ∈ snapshot.clips then
      TwitchAPI.clip_loop env rest snapshot stored
    else
      let ns := TwitchAPI.send_clips_update env c snapshot
      let (ns2, stored') := TwitchAPI.clip_loop env rest snapshot
        { stored with clips := stored.clips ++ [c.id] }
      (ns ++ ns2, stored')

/-- One iteration of the per-subject loop of `check_clips` (twitch_api.py
lines 286-299): the clips fetch is wrapped in `try/except` — on failure the
exception is logged and the subject is skipped (`continue`), leaving its
record unchanged and sending nothing.  Only the fetch is guarded. -/
def TwitchAPI.check_clips_one (env : TwitchEnv) (user_id : String)
    (cd : ClipData) : List ClipNotice × ClipData :=
  match env.get_new_clips user_id with
  | .error _ => ([], cd)
  | .ok clips => TwitchAPI.clip_loop env clips cd cd

/-- Embedding of `TwitchAPI.check_clips` (twitch_api.py lines 284-299) over the items of
the `twitch_clips` mapping, in iteration order. -/
def TwitchAPI.check_clips_all (env : TwitchEnv) :
    List (String × ClipData) → List ClipNotice × List (String × ClipData)
  | [] => ([], [])
  | (uid, cd) :: rest =>
    let (ns, cd') := TwitchAPI.check_clips_one env uid cd
    let (ns2, rest') := TwitchAPI.check_clips_all env rest
    (ns ++ ns2, (uid, cd') :: rest')

/-- The `for account in follow_accounts` loop of `check_for_new_followers`
(twitch_api.py lines 311-312): `await self.check_followers(account)` is NOT
wrapped in any handler, so the first exception aborts the whole pass. -/
def TwitchAPI.followers_pass (env : TwitchEnv) :
    List TwitchAccount → List FollowNotice × Except TErr (List TwitchAccount)
  | [] => ([], .ok [])
  | a :: rest =>
    match TwitchAPI.check_followers env a with
    | (ns, .error e) => (ns, .error e)
    | (ns, .ok a') =>
      let (ns2, r) := TwitchAPI.followers_pass env rest
      (ns ++ ns2, r.map (fun l => a' :: l))

/-- One body iteration of the `while` loop of `check_for_new_followers`
(twitch_api.py lines 309-314): the followers pass over all accounts, then
`check_clips`.  An exception from the followers pass propagates (there is
no handler in the loop). -/
def TwitchAPI.poll_cycle (env : TwitchEnv) (accounts : List TwitchAccount)
    (clips : List (String × ClipData)) :
    List FollowNotice × List ClipNotice ×
      Except TErr (List TwitchAccount × List (String × ClipData)) :=
  match TwitchAPI.followers_pass env accounts with
  | (ns, .error e) => (ns, [], .error e)
  | (ns, .ok accounts') =>
    let (cns, clips') := TwitchAPI.check_clips_all env clips
    (ns, cns, .ok (accounts', clips'))

/-- How a run of the polling loop can end without an exception. -/
inductive LoopEnd where
  | unregistered : LoopEnd
  | fuel_spent : LoopEnd
  deriving DecidableEq, Repr

/-- The `while self is self.bot.get_cog("Twitch")` loop of
`TwitchAPI.check_for_new_followers` (twitch_api.py lines 302-314).
`registered n` tells whether the identity check still passes at iteration
`n`.  The loop exits normally only when that check fails
(`LoopEnd.unregistered`) or the model's fuel runs out; an exception raised
by a cycle terminates the whole task (`Except.error`), since the loop body
has no handler. -/
def TwitchAPI.poll_loop (env : TwitchEnv) (registered : Nat → Bool) :
    Nat → Nat → List TwitchAccount → List (String × ClipData) →
      Except TErr LoopEnd
  | 0, _, _, _ => .ok .fuel_spent
  | fuel + 1, n, accounts, clips =>
    if registered n then
      match TwitchAPI.poll_cycle env accounts clips with
      | (_, _, .error e) => .error e
      | (_, _, .ok (accounts', clips')) =>
        TwitchAPI.poll_loop env registered fuel (n + 1) accounts' clips'
    else .ok .unregistered

/-- Outcome of one `get_page` call of the schedule page source used by
`GamesMenu` (src/hockey/schedule source, consumed through
`self._source.get_page(page_number, skip_next=..., skip_prev=...)` in
menu.py lines 72-74): a page, the distinguished `NoSchedule` exception, or
a generic `IndexError`. -/
inductive GFetch where
  | page : Nat → GFetch
  | no_schedule : GFetch
  | index_error : GFetch
  deriving DecidableEq, Repr

/-- The page source a `GamesMenu` session holds: its `get_max_pages()`
result and its `get_page(page_number, skip_next, skip_prev)` behaviour. -/
structure GSource where
  max_pages : Option Nat
  get_page : Int → Bool → Bool → GFetch

/-- Outcome of one `get_page` call of a page source used by `BaseMenu`:
a page or an `IndexError` (out-of-range index of a fixed-list source). -/
inductive BFetch where
  | page : Nat → BFetch
  | index_error : BFetch
  deriving DecidableEq, Repr

/-- The page source a `BaseMenu` session holds. -/
structure BSource where
  max_pages : Option Nat
  get_page : Int → BFetch

/-- What the menu's displayed message currently shows: nothing yet, a
rendered page (abstracted to its content number), or plain text with the
embed cleared. -/
inductive Display where
  | start : Display
  | page : Nat → Display
  | text : String → Display
  deriving DecidableEq, Repr

/-- The mutable menu-session state the navigation claims are about:
`self.current_page` and the content of `self.message`. -/
structure MenuState where
  current_page : Int
  display : Display
  deriving DecidableEq, Repr

/-- The exceptions flowing through the menu navigation paths. -/
inductive MenuErr where
  | index_error : MenuErr
  | no_schedule : MenuErr
  deriving DecidableEq, Repr

/-- The exact user-facing text `GamesMenu.show_page` renders on
`NoSchedule` (menu.py line 77). -/
def no_schedule_text : String :=
  "No Schedule could be found for that date and team."

/-- Embedding of `GamesMenu.show_page` (menu.py lines 70-82): `get_page` is called with
the requested number and the skip flags; on `NoSchedule` the displayed
message is edited to the fixed text with `embed=None` and the method
returns early, leaving `self.current_page` untouched; on success
`self.current_page = page_number` and the page is rendered; any other
exception (e.g. `IndexError`) propagates. -/
def GamesMenu.show_page (src : GSource) (st : MenuState) (page_number : Int)
    (skip_next skip_prev : Bool) : Except MenuErr MenuState :=
  match src.get_page page_number skip_next skip_prev with
  | .no_schedule => .ok { st with display := Display.text no_schedule_text }
  | .page c => .ok { current_page := page_number, display := .page c }
  | .index_error => .error .index_error

/-- Embedding of `GamesMenu.show_checked_page` (menu.py lines 105-110): forwards the raw
page number to `show_page` (no wrapping, no comparison against
`get_max_pages`) and swallows `IndexError` as a no-op. -/
def GamesMenu.show_checked_page (src : GSource) (st : MenuState)
    (page_number : Int) : Except MenuErr MenuState :=
  match GamesMenu.show_page src st page_number false false with
  | .ok st' => .ok st'
  | .error .index_error => .ok st
  | .error e => .error e

/-- Modelled from the spec: `BaseMenu` inherits `show_page` from the host
framework's `MenuPages` base class (redbot.vendored.discord.ext.menus, not
in src) — it fetches the page at the given index, sets the current index,
and renders the page into the displayed message; a fetch failure
propagates. -/
def BaseMenu.show_page (src : BSource) (_st : MenuState) (page_number : Int) :
    Except MenuErr MenuState :=
  match src.get_page page_number with
  | .page c => .ok { current_page := page_number, display := .page c }
  | .index_error => .error .index_error

/-- Embedding of `BaseMenu.show_checked_page` (menu.py lines 384-398): with an unknown
page count the raw number is forwarded; with a known count `max_pages`,
`page_number >= max_pages` shows page 0, `page_number < 0` shows page
`max_pages - 1`, and an in-range number is shown as is (the final `elif`
chain; if no branch fired the method just returns).  `IndexError` from the
attempt is swallowed as a no-op. -/
def BaseMenu.show_checked_page (src : BSource) (st : MenuState)
    (page_number : Int) : Except MenuErr MenuState :=
  let attempt : Except MenuErr MenuState :=
    match src.max_pages with
    | none => BaseMenu.show_page src st page_number
    | some max_pages =>
      if (max_pages : Int) ≤ page_number then
        BaseMenu.show_page src st 0
      else if page_number < 0 then
        BaseMenu.show_page src st ((max_pages : Int) - 1)
      else if page_number < (max_pages : Int) ∧ 0 ≤ page_number then
        BaseMenu.show_page src st page_number
      else .ok st
  match attempt with
  | .ok st' => .ok st'
  | .error .index_error => .ok st
  | .error e => .error e

/-- Embedding of `BaseMenu._skip_single_arrows` (menu.py lines 408-412): true (hide)
when the page count is unknown or exactly 1. -/
def BaseMenu.skip_single_arrows (max_pages : Option Nat) : Bool :=
  match max_pages with
  | none => true
  | some m => m == 1

/-- Embedding of `BaseMenu._skip_double_triangle_buttons` (menu.py lines 414-418): true
(hide) when the page count is unknown or at most 2. -/
def BaseMenu.skip_double_triangle_buttons (max_pages : Option Nat) : Bool :=
  match max_pages with
  | none => true
  | some m => decide (m ≤ 2)

/-- Embedding of `GamesMenu._skip_single_arrows` (menu.py lines 120-124): same predicate
as the `BaseMenu` one — but note that no `GamesMenu` button declaration
references it. -/
def GamesMenu.skip_single_arrows (max_pages : Option Nat) : Bool :=
  match max_pages with
  | none => true
  | some m => m == 1

/-- A menu control as declared by a `@menus.button(...)` decorator: the
only part the visibility claims need is its optional `skip_if` predicate,
a function of the source's `get_max_pages()` result. -/
structure MenuButton where
  skip_if : Option (Option Nat → Bool)

/-- The previous-page button of `BaseMenu` (menu.py lines 420-427):
declared with `skip_if=_skip_single_arrows`. -/
def BaseMenu.go_to_previous_page_button : MenuButton :=
  ⟨some BaseMenu.skip_single_arrows⟩

/-- The next-page button of `BaseMenu` (menu.py lines 429-436). -/
def BaseMenu.go_to_next_page_button : MenuButton :=
  ⟨some BaseMenu.skip_single_arrows⟩

/-- The first-page button of `BaseMenu` (menu.py lines 438-445):
declared with `skip_if=_skip_double_triangle_buttons`. -/
def BaseMenu.go_to_first_page_button : MenuButton :=
  ⟨some BaseMenu.skip_double_triangle_buttons⟩

/-- The last-page button of `BaseMenu` (menu.py lines 447-455). -/
def BaseMenu.go_to_last_page_button : MenuButton :=
  ⟨some BaseMenu.skip_double_triangle_buttons⟩

/-- The previous-page button of `GamesMenu` (menu.py lines 126-131):
declared with NO `skip_if` argument. -/
def GamesMenu.go_to_previous_page_button : MenuButton := ⟨none⟩

/-- The next-page button of `GamesMenu` (menu.py lines 133-139): no
`skip_if`. -/
def GamesMenu.go_to_next_page_button : MenuButton := ⟨none⟩

/-- The first-page button of `GamesMenu` (menu.py lines 141-147): no
`skip_if`. -/
def GamesMenu.go_to_first_page_button : MenuButton := ⟨none⟩

/-- The last-page button of `GamesMenu` (menu.py lines 149-156): no
`skip_if`. -/
def GamesMenu.go_to_last_page_button : MenuButton := ⟨none⟩

/-- Modelled from the spec: the host framework hides a control whose
`skip_if` predicate evaluates to true against the menu (here: against the
source's current `get_max_pages()` result); a control without a `skip_if`
predicate is always shown. -/
def button_hidden (b : MenuButton) (max_pages : Option Nat) : Bool :=
  match b.skip_if with
  | none => false
  | some f => f max_pages

/-- True when an `Except` value is a normal return, i.e. no exception
escaped. -/
def no_raise {E A : Type} : Except E A → Bool
  | .ok _ => true
  | .error _ => false

/-- Observable outcome of one `update` call: whether the handler body was
entered, which exception (if any) was caught and logged, and whether the
session is still running afterwards. -/
structure UpdateRes (E : Type) where
  ran : Bool
  logged : Option E
  running_after : Bool
  deriving DecidableEq, Repr

/-- Embedding of `GamesMenu.update` (menu.py lines 46-68): if the session is no longer
running the event is dropped; otherwise the button handler runs (behind the
session lock, re-checking `self._running`, when the button is marked
`lock`), and ANY exception it raises is caught by the
`except Exception` clause, logged, and suppressed — the method always
returns normally.  `handler` is the outcome of `await button(self,
payload)`. -/
def GamesMenu.update {E : Type} (running : Bool) (button_lock : Bool)
    (handler : Except E Unit) : Except E (UpdateRes E) :=
  if running = false then .ok ⟨false, none, running⟩
  else
    let act : Option (Except E Unit) :=
      if button_lock then (if running then some handler else none)
      else some handler
    match act with
    | none => .ok ⟨false, none, running⟩
    | some (.ok _) => .ok ⟨true, none, running⟩
    | some (.error e) => .ok ⟨true, some e, running⟩

/-- Embedding of `BaseMenu.update` (menu.py lines 360-382): identical body to
`GamesMenu.update`. -/
def BaseMenu.update {E : Type} (running : Bool) (button_lock : Bool)
    (handler : Except E Unit) : Except E (UpdateRes E) :=
  if running = false then .ok ⟨false, none, running⟩
  else
    let act : Option (Except E Unit) :=
      if button_lock then (if running then some handler else none)
      else some handler
    match act with
    | none => .ok ⟨false, none, running⟩
    | some (.ok _) => .ok ⟨true, none, running⟩
    | some (.error e) => .ok ⟨true, some e, running⟩

/-- An upstream behaviour where every fetch fails; used to exercise the
error paths of the polling loop. -/
def env_bad : TwitchEnv where
  get_profile_from_id := fun _ => .error TErr.fetch
  get_new_followers := fun _ => .error TErr.fetch
  get_new_clips := fun _ => .error TErr.fetch
  get_channel := fun _ => none

/-- A followed account with no recorded followers and no channels. -/
def acct_a : TwitchAccount := ⟨"A", [], []⟩

/-- Profile of the followed account in the stale-profile scenario. -/
def p_a : TwitchProfile := ⟨"A", "streamer_a", "StreamerA"⟩

/-- Profile of follower u1 in the stale-profile scenario. -/
def p_u1 : TwitchProfile := ⟨"u1", "userone", "UserOne"⟩

/-- Upstream behaviour for the stale-profile scenario: the followed account
"A" has followers (newest first) u2 then u1; profile fetches succeed for
"A" and "u1" but fail for "u2"; channel 7 exists with embed permission. -/
def env_stale : TwitchEnv where
  get_profile_from_id := fun s =>
    if s = "A" then .ok p_a
    else if s = "u1" then .ok p_u1
    else .error TErr.fetch
  get_new_followers := fun _ => .ok ([⟨"u2"⟩, ⟨"u1"⟩], 2)
  get_new_clips := fun _ => .error TErr.fetch
  get_channel := fun _ => some ⟨true, true⟩

/-- The account record for the stale-profile scenario: nothing recorded
yet, one destination channel. -/
def acct_stale : TwitchAccount := ⟨"A", [], [7]⟩

/-- Upstream behaviour where the profile fetch of the very first
unrecorded follower fails. -/
def env_unbound : TwitchEnv where
  get_profile_from_id := fun s =>
    if s = "A" then .ok p_a else .error TErr.fetch
  get_new_followers := fun _ => .ok ([⟨"u2"⟩], 1)
  get_new_clips := fun _ => .error TErr.fetch
  get_channel := fun _ => some ⟨true, true⟩

/-- Upstream behaviour for the claimed scenario: the recorded set is
`u1` only, the fetched follower list is u1 then u2 (so the reversed
processing order is u2 then u1), and every profile fetch succeeds. -/
def env_scenario : TwitchEnv where
  get_profile_from_id := fun s =>
    if s = "A" then .ok p_a
    else if s = "u1" then .ok p_u1
    else .ok ⟨"u2", "usertwo", "UserTwo"⟩
  get_new_followers := fun _ => .ok ([⟨"u1"⟩, ⟨"u2"⟩], 2)
  get_new_clips := fun _ => .error TErr.fetch
  get_channel := fun _ => some ⟨true, true⟩

/-- The account record of the claimed scenario: `u1` already recorded. -/
def acct_scenario : TwitchAccount := ⟨"A", ["u1"], [7]⟩

/-- An attempt-indexed response behaviour: attempt 0 is rejected with 429,
every later attempt succeeds with body 7. -/
def env_429_once : Nat → HttpResp := fun i =>
  if i = 0 then ⟨429, some 0, some 60, 0⟩ else ⟨200, some 799, none, 7⟩

/-- A finite two-page source driving a `GamesMenu` session. -/
def gsrc_two : GSource where
  max_pages := some 2
  get_page := fun n _ _ =>
    if n = 0 then .page 0 else if n = 1 then .page 1 else .index_error

/-- A source whose schedule fetch always reports `NoSchedule`. -/
def gsrc_empty : GSource where
  max_pages := none
  get_page := fun _ _ _ => .no_schedule

/-- A source reporting `NoSchedule` exactly at page 2 and a page
everywhere else. -/
def gsrc_mixed : GSource where
  max_pages := some 5
  get_page := fun n _ _ => if n = 2 then .no_schedule else .page 9

/-- A finite two-page fixed-list source driving a `BaseMenu` session. -/
def bsrc_two : BSource where
  max_pages := some 2
  get_page := fun n =>
    if n = 0 then .page 10 else if n = 1 then .page 11 else .index_error

/-- A source with unknown page count whose fetch always raises
`IndexError`. -/
def bsrc_none : BSource where
  max_pages := none
  get_page := fun _ => .index_error

/-- C3 (amended): when the locally tracked remaining counter is zero the
client prunes every already-elapsed reset timestamp, and — when some
remain — suspends until the FIRST timestamp of the set's iteration order
plus 0.1, which need not be the earliest one; when exactly one timestamp
`T` is still pending it is trivially the earliest, the sleep is
`T - current_time + 0.1`, and the task resumes exactly at `T + 0.1`, so no
request is issued before then. -/
theorem C3_rate_limit_wait (st : RLState) (current_time : Nat)
    (h0 : st.rate_limit_remaining = 0) :
    (TwitchAPI.wait_for_rate_limit_reset st current_time).1.rate_limit_resets =
      st.rate_limit_resets.filter (fun x => decide (current_time < x)) ∧
    ∀ T : Nat,
      st.rate_limit_resets.filter (fun x => decide (current_time < x)) = [T] →
      (TwitchAPI.wait_for_rate_limit_reset st current_time).2 =
        some ((T : ℚ) - (current_time : ℚ) + 1 / 10) ∧
      (current_time : ℚ) + ((T : ℚ) - (current_time : ℚ) + 1 / 10) =
        (T : ℚ) + 1 / 10 := by
  constructor
  · simp only [TwitchAPI.wait_for_rate_limit_reset, h0, if_true]
    split <;> rfl
  · intro T hT
    refine ⟨?_, by ring⟩
    simp [TwitchAPI.wait_for_rate_limit_reset, h0, hT]

/-- C3 counterexample: with the remaining counter 0 at time 0 and the reset
set iterating as 8 then 1 (CPython's set containing 8 and 1 iterates in
exactly this order: 8 occupies slot 0 of the 8-slot table, 1 occupies
slot 1), the code sleeps until 8 + 0.1, although the earliest still-pending
reset is 1 and the claimed suspension bound would be 1 + 0.1, which is
strictly smaller. -/
theorem C3_counterexample :
    (TwitchAPI.wait_for_rate_limit_reset ⟨0, [8, 1]⟩ 0).2 =
      some (((8 : Nat) : ℚ) - ((0 : Nat) : ℚ) + 1 / 10) ∧
    1 ∈ (TwitchAPI.wait_for_rate_limit_reset ⟨0, [8, 1]⟩ 0).1.rate_limit_resets ∧
    ((1 : ℚ) + 1 / 10) < ((8 : Nat) : ℚ) - ((0 : Nat) : ℚ) + 1 / 10 := by
  refine ⟨rfl, by decide, by norm_num⟩

/-- C3 witness: concrete run with remaining 0, resets iterating as 3 then
5, at time 4: timestamp 3 is pruned, the single pending timestamp 5 is
kept, and the sleep is 5 - 4 + 0.1. -/
theorem C3_witness :
    (TwitchAPI.wait_for_rate_limit_reset ⟨0, [3, 5]⟩ 4).1.rate_limit_resets =
      [5] ∧
    (TwitchAPI.wait_for_rate_limit_reset ⟨0, [3, 5]⟩ 4).2 =
      some (((5 : Nat) : ℚ) - ((4 : Nat) : ℚ) + 1 / 10) := by
  have h := C3_rate_limit_wait ⟨0, [3, 5]⟩ 4 rfl
  have h5 := h.2 5 (by decide)
  exact ⟨h.1.trans (by decide), h5.1⟩

/-- C5: when the schedule source raises the distinguished `NoSchedule`
signal, `GamesMenu.show_page` edits the displayed message to the specific
no-schedule text (with the embed cleared) instead of silently ignoring the
failure. -/
theorem C5_no_schedule_message (src : GSource) (st : MenuState)
    (page_number : Int) (skip_next skip_prev : Bool)
    (h : src.get_page page_number skip_next skip_prev = GFetch.no_schedule) :
    GamesMenu.show_page src st page_number skip_next skip_prev =
      .ok ⟨st.current_page, Display.text no_schedule_text⟩ := by
  simp [GamesMenu.show_page, h]

/-- C5 witness: the always-no-schedule source makes `show_page` render the
specific message. -/
theorem C5_witness :
    GamesMenu.show_page gsrc_empty ⟨4, Display.start⟩ 9 false false =
      .ok ⟨4, Display.text no_schedule_text⟩ :=
  C5_no_schedule_message gsrc_empty ⟨4, Display.start⟩ 9 false false rfl

/-- C10: `GamesMenu.show_page` leaves `self.current_page` unchanged when
the source raises the no-schedule signal (only the displayed content is
replaced), and sets it to the requested number exactly when the fetch
succeeds. -/
theorem C10_show_page_frame (src : GSource) (st : MenuState)
    (page_number : Int) (skip_next skip_prev : Bool) :
    (src.get_page page_number skip_next skip_prev = GFetch.no_schedule →
      (GamesMenu.show_page src st page_number skip_next skip_prev).map
        MenuState.current_page = .ok st.current_page) ∧
    (∀ c : Nat, src.get_page page_number skip_next skip_prev = GFetch.page c →
      GamesMenu.show_page src st page_number skip_next skip_prev =
        .ok ⟨page_number, Display.page c⟩) := by
  constructor
  · intro h
    simp [GamesMenu.show_page, h, Except.map]
  · intro c h
    simp [GamesMenu.show_page, h]

/-- C10 witness: on the mixed source, requesting page 2 (no schedule)
keeps the index at 0, requesting page 3 (a page) moves it to 3. -/
theorem C10_witness :
    (GamesMenu.show_page gsrc_mixed ⟨0, Display.start⟩ 2 false false).map
      MenuState.current_page = .ok 0 ∧
    GamesMenu.show_page gsrc_mixed ⟨0, Display.start⟩ 3 false false =
      .ok ⟨3, Display.page 9⟩ :=
  ⟨(C10_show_page_frame gsrc_mixed ⟨0, Display.start⟩ 2 false false).1 rfl,
   (C10_show_page_frame gsrc_mixed ⟨0, Display.start⟩ 3 false false).2 9 rfl⟩

/-- C7 (amended): for `BaseMenu` sessions the previous/next controls are
hidden exactly when the source reports page count 1 (and when the count is
unknown), and the first/last jump controls exactly when the count is at
most 2 (or unknown) — evaluated dynamically against the source's current
`get_max_pages()`; `GamesMenu` sessions, whose button declarations carry no
skip predicate, never hide any control (see the counterexample). -/
theorem C7_skip_controls :
    (∀ k : Nat,
      button_hidden BaseMenu.go_to_previous_page_button (some k) = (k == 1) ∧
      button_hidden BaseMenu.go_to_next_page_button (some k) = (k == 1) ∧
      button_hidden BaseMenu.go_to_first_page_button (some k) =
        decide (k ≤ 2) ∧
      button_hidden BaseMenu.go_to_last_page_button (some k) =
        decide (k ≤ 2)) ∧
    button_hidden BaseMenu.go_to_previous_page_button none = true ∧
    button_hidden BaseMenu.go_to_first_page_button none = true :=
  ⟨fun _ => ⟨rfl, rfl, rfl, rfl⟩, rfl, rfl⟩

/-- C7 counterexample: a `GamesMenu` session whose source reports exactly
one page still shows all four navigation controls, because its button
declarations pass no `skip_if` — even though its own (unused)
`_skip_single_arrows` predicate would have requested hiding. -/
theorem C7_counterexample :
    button_hidden GamesMenu.go_to_previous_page_button (some 1) = false ∧
    button_hidden GamesMenu.go_to_next_page_button (some 1) = false ∧
    button_hidden GamesMenu.go_to_first_page_button (some 1) = false ∧
    button_hidden GamesMenu.go_to_last_page_button (some 1) = false ∧
    GamesMenu.skip_single_arrows (some 1) = true :=
  ⟨rfl, rfl, rfl, rfl, rfl⟩

/-- C8: on a running session, whatever the activated control's handler
does, both `update` implementations return normally — an exception raised
by the handler is caught, recorded in the log field, and suppressed, and
the session is still running afterwards. -/
theorem C8_update_suppresses (E : Type) (button_lock : Bool) (e : E)
    (handler : Except E Unit) :
    GamesMenu.update true button_lock (Except.error e) =
      .ok ⟨true, some e, true⟩ ∧
    BaseMenu.update true button_lock (Except.error e) =
      .ok ⟨true, some e, true⟩ ∧
    no_raise (GamesMenu.update true button_lock handler) = true ∧
    no_raise (BaseMenu.update true button_lock handler) = true := by
  cases button_lock <;> cases handler <;>
    simp [GamesMenu.update, BaseMenu.update, no_raise]

/-- C9 (amended): the clip request window is bounded below by the start
timestamp and above by now exactly when a start timestamp is supplied;
without one the assembled request carries no time-window parameters at
all, so it is not explicitly bounded above by now. -/
theorem C9_clip_window (user_id : String) (t now : Nat) :
    TwitchAPI.get_new_clips_params user_id (some t) now =
      [("broadcaster_id", user_id), ("started_at", toString t ++ "Z"),
        ("ended_at", toString now ++ "Z")] ∧
    TwitchAPI.get_new_clips_params user_id none now =
      [("broadcaster_id", user_id)] :=
  ⟨rfl, rfl⟩

/-- C9 counterexample: with no start timestamp supplied the assembled clip
request has only the `broadcaster_id` parameter — in particular no
`ended_at` upper bound. -/
theorem C9_counterexample :
    (TwitchAPI.get_new_clips_params "123" none 100).map Prod.fst =
      ["broadcaster_id"] ∧
    "ended_at" ∉ (TwitchAPI.get_new_clips_params "123" none 100).map
      Prod.fst := by
  exact ⟨rfl, by decide⟩

/-- C2 evaluation at the failing input: with nothing recorded, upstream
followers (newest first) u2 then u1, and the profile fetch for u2 failing,
`check_followers` sends TWO notifications rendering u1's profile to channel
7 — the second after "u1" is already in the recorded set — because the
logged fetch failure falls through to the stale `profile` local (second
conjunct: had the failure hit the first unrecorded follower, the unbound
local raises `NameError` instead).  Third conjunct: the claimed clean
scenario (recorded u1, upstream u2 then u1, all fetches succeeding) does
behave as the claim states, confirming the slip is in the fall-through. -/
theorem C2_stale_profile_renotifies :
    TwitchAPI.check_followers env_stale acct_stale =
      ([⟨7, "u1", true⟩, ⟨7, "u1", true⟩], .ok ⟨"A", ["u1", "u2"], [7]⟩) ∧
    TwitchAPI.check_followers env_unbound acct_stale =
      ([], .error TErr.name_error) ∧
    TwitchAPI.check_followers env_scenario acct_scenario =
      ([⟨7, "u2", true⟩], .ok ⟨"A", ["u1", "u2"], [7]⟩) :=
  ⟨rfl, rfl, rfl⟩

/-- C1 (amended): an exception from the clips fetch for one subject is
caught, logged, and the subject skipped for the cycle with its record
unchanged; but an exception raised inside a followed-account check
propagates through the unguarded `await self.check_followers(account)` and
terminates the polling loop even while the instance identity check still
passes. -/
theorem C1_cycle_error_behavior :
    (∀ (env : TwitchEnv) (user_id : String) (cd : ClipData),
      no_raise (env.get_new_clips user_id) = false →
      TwitchAPI.check_clips_one env user_id cd = ([], cd)) ∧
    (∀ (env : TwitchEnv) (registered : Nat → Bool) (fuel n : Nat)
      (a : TwitchAccount) (accounts : List TwitchAccount)
      (clips : List (String × ClipData)) (e : TErr),
      (TwitchAPI.check_followers env a).2 = .error e →
      registered n = true →
      TwitchAPI.poll_loop env registered (fuel + 1) n (a :: accounts) clips =
        .error e) := by
  constructor
  · intro env uid cd h
    cases hc : env.get_new_clips uid with
    | error e => simp [TwitchAPI.check_clips_one, hc]
    | ok clips => rw [hc] at h; simp [no_raise] at h
  · intro env registered fuel n a accounts clips e hca hreg
    rcases hc : TwitchAPI.check_followers env a with ⟨ns, r⟩
    rw [hc] at hca
    simp only at hca
    subst hca
    simp [TwitchAPI.poll_loop, hreg, TwitchAPI.poll_cycle,
      TwitchAPI.followers_pass, hc]

/-- C1 counterexample: with every upstream fetch failing and the identity
check passing at every iteration, the polling loop run ends with the
propagated fetch exception — an error during a followed-account check has
terminated the loop even though the extension instance is still the
registered one. -/
theorem C1_counterexample :
    TwitchAPI.poll_loop env_bad (fun _ => true) 3 0 [acct_a] [] =
      .error TErr.fetch := rfl

/-- C1 witness: the two halves of the amended statement at concrete
inputs — a failing clips fetch leaves the subject untouched, and a failing
follower check kills a registered loop. -/
theorem C1_witness :
    TwitchAPI.check_clips_one env_bad "u" ⟨"d", [], []⟩ =
      ([], ⟨"d", [], []⟩) ∧
    TwitchAPI.poll_loop env_bad (fun _ => true) (0 + 1) 0 [acct_a] [] =
      .error TErr.fetch :=
  ⟨C1_cycle_error_behavior.1 env_bad "u" ⟨"d", [], []⟩ rfl,
   C1_cycle_error_behavior.2 env_bad (fun _ => true) 0 0 acct_a [] []
     TErr.fetch rfl rfl⟩

/-- C4 (amended): for a `BaseMenu` session over a well-formed source with
known page count N greater than 0, activating next at index N-1 wraps to
page 0 and activating previous at index 0 wraps to page N-1; with an
unknown page count, a request whose fetch raises the not-found signal is
silently ignored as a no-op.  The `GamesMenu` controller, by contrast,
never wraps even when a finite count is known (see the counterexample). -/
theorem C4_wrap_behavior (src : BSource) (st : MenuState) (N : Nat)
    (hN : 0 < N) (hmax : src.max_pages = some N)
    (hwf : ∀ i : Int, 0 ≤ i → i < (N : Int) → ∃ c, src.get_page i = .page c) :
    (∃ c, BaseMenu.show_checked_page src st ((N : Int) - 1 + 1) =
      .ok ⟨0, Display.page c⟩) ∧
    (∃ c, BaseMenu.show_checked_page src st (0 - 1) =
      .ok ⟨(N : Int) - 1, Display.page c⟩) ∧
    (∀ (src' : BSource) (st' : MenuState) (n : Int),
      src'.max_pages = none → src'.get_page n = .index_error →
      BaseMenu.show_checked_page src' st' n = .ok st') := by
  refine ⟨?_, ?_, ?_⟩
  · obtain ⟨c, hc⟩ := hwf 0 le_rfl (by exact_mod_cast hN)
    refine ⟨c, ?_⟩
    have harg : ((N : Int) - 1 + 1) = (N : Int) := by ring
    simp [BaseMenu.show_checked_page, hmax, harg, BaseMenu.show_page, hc]
  · obtain ⟨c, hc⟩ := hwf ((N : Int) - 1) (by omega) (by omega)
    refine ⟨c, ?_⟩
    have h1 : ¬ ((N : Int) ≤ -1) := by omega
    simp [BaseMenu.show_checked_page, hmax, BaseMenu.show_page, hc, h1]
  · intro src' st' n hnone hie
    simp [BaseMenu.show_checked_page, hnone, BaseMenu.show_page, hie]

/-- C4 counterexample: a `GamesMenu` session over a two-page source, at the
last index 1, activating next (`show_checked_page 2`) leaves the session
unchanged on page 1 instead of wrapping to page 0 — `GamesMenu`'s
`show_checked_page` forwards the raw index and swallows the resulting
`IndexError`. -/
theorem C4_counterexample :
    GamesMenu.show_checked_page gsrc_two ⟨1, Display.page 1⟩ 2 =
      .ok ⟨1, Display.page 1⟩ ∧
    GamesMenu.show_checked_page gsrc_two ⟨1, Display.page 1⟩ 2 ≠
      .ok ⟨0, Display.page 0⟩ ∧
    gsrc_two.max_pages = some 2 := by
  refine ⟨rfl, ?_, rfl⟩
  intro h
  rw [show GamesMenu.show_checked_page gsrc_two ⟨1, Display.page 1⟩ 2 =
    Except.ok ⟨1, Display.page 1⟩ from rfl] at h
  simp only [Except.ok.injEq, MenuState.mk.injEq] at h
  exact absurd h.1 (by decide)

/-- C4 witness: the amended statement applied to the concrete two-page
`BaseMenu` source. -/
theorem C4_witness :
    (0 : Nat) < 2 ∧
    ((∃ c, BaseMenu.show_checked_page bsrc_two ⟨1, Display.page 11⟩
        (((2 : Nat) : Int) - 1 + 1) = .ok ⟨0, Display.page c⟩) ∧
     (∃ c, BaseMenu.show_checked_page bsrc_two ⟨1, Display.page 11⟩ (0 - 1) =
        .ok ⟨((2 : Nat) : Int) - 1, Display.page c⟩) ∧
     (∀ (src' : BSource) (st' : MenuState) (n : Int),
        src'.max_pages = none → src'.get_page n = .index_error →
        BaseMenu.show_checked_page src' st' n = .ok st')) :=
  ⟨by decide,
   C4_wrap_behavior bsrc_two ⟨1, Display.page 11⟩ 2 (by decide) rfl (by
     intro i h1 h2
     have hi : i = 0 ∨ i = 1 := by omega
     rcases hi with h | h <;> subst h
     · exact ⟨10, rfl⟩
     · exact ⟨11, rfl⟩)⟩

/-- Helper for C6: a non-429 response ends `get_response` on that
attempt, returning its body after the attempt's four steps. -/
theorem get_response_done (env : Nat → HttpResp) (fuel k : Nat)
    (st : RLState) (tr : List Step) (h : (env k).status ≠ 429) :
    TwitchAPI.get_response env (fuel + 1) k st tr =
      (tr ++ attempt_steps k, TwitchAPI.update_rl st (env k),
        some (env k).body) := by
  simp [TwitchAPI.get_response, attempt_steps, h]

/-- Helper for C6: a run of `get_response` whose first `n` attempts from
`k` are all rejected with 429 and whose attempt `k + n` is not, performs
`n + 1` complete attempts and returns the body of attempt `k + n`. -/
theorem get_response_run (env : Nat → HttpResp) :
    ∀ (n k fuel : Nat) (st : RLState) (tr : List Step),
      (∀ i, i < n → (env (k + i)).status = 429) →
      (env (k + n)).status ≠ 429 →
      ∃ st', TwitchAPI.get_response env (fuel + (n + 1)) k st tr =
        (tr ++ trace_from k (n + 1), st', some ((env (k + n)).body)) := by
  intro n
  induction n with
  | zero =>
    intro k fuel st tr _ hok
    refine ⟨TwitchAPI.update_rl st (env k), ?_⟩
    have hk : (env k).status ≠ 429 := by simpa using hok
    have h := get_response_done env fuel k st tr hk
    simpa [trace_from] using h
  | succ m ih =>
    intro k fuel st tr h429 hok
    have hk : (env k).status = 429 := by
      simpa using h429 0 (Nat.succ_pos m)
    have hstep : TwitchAPI.get_response env (fuel + (m + 1) + 1) k st tr =
        TwitchAPI.get_response env (fuel + (m + 1)) (k + 1)
          (TwitchAPI.update_rl st (env k)) (tr ++ attempt_steps k) := by
      simp [TwitchAPI.get_response, attempt_steps, hk]
    obtain ⟨st', hst'⟩ := ih (k + 1) fuel (TwitchAPI.update_rl st (env k))
      (tr ++ attempt_steps k)
      (fun i hi => by
        have h2 := h429 (i + 1) (by omega)
        have e : k + (i + 1) = k + 1 + i := by omega
        rwa [e] at h2)
      (by
        have e : k + 1 + m = k + (m + 1) := by omega
        rw [e]; exact hok)
    refine ⟨st', ?_⟩
    have harith : fuel + (m + 1 + 1) = fuel + (m + 1) + 1 := by omega
    rw [harith, hstep, hst']
    have e : k + 1 + m = k + (m + 1) := by omega
    rw [e]
    simp [trace_from, List.append_assoc]

/-- C6: on a 429 response `get_response` retries the ENTIRE call as a
fresh attempt — credential check, header assembly, rate-limit wait,
request — never failing and never handing the 429 body to the caller:
after any number n of leading 429 rejections the caller receives the body
of the first non-429 response and the trace consists of n + 1 complete
attempts; and under unbroken 429 rejection the call never returns at all
(no amount of fuel produces a result), i.e. the retry is unbounded. -/
theorem C6_retry_on_429 :
    (∀ (env : Nat → HttpResp) (n fuel : Nat) (st : RLState),
      (∀ i, i < n → (env i).status = 429) → (env n).status ≠ 429 →
      ∃ st', TwitchAPI.get_response env (fuel + (n + 1)) 0 st [] =
        (trace_from 0 (n + 1), st', some ((env n).body))) ∧
    (∀ env : Nat → HttpResp,
      (∀ i, (env i).status = 429) →
      ∀ (fuel k : Nat) (st : RLState) (tr : List Step),
        (TwitchAPI.get_response env fuel k st tr).2.2 = none) := by
  constructor
  · intro env n fuel st h429 hok
    have h := get_response_run env n 0 fuel st []
      (by simpa using h429) (by simpa using hok)
    simpa using h
  · intro env hall fuel
    induction fuel with
    | zero => intro k st tr; rfl
    | succ m ih =>
      intro k st tr
      simp only [TwitchAPI.get_response, hall k, if_true]
      exact ih _ _ _

/-- C6 witness: one 429 rejection then success — the caller gets the body
of attempt 1 after two complete attempts; and an always-429 upstream never
yields a result within fuel 5. -/
theorem C6_witness :
    (∃ st', TwitchAPI.get_response env_429_once (1 + (1 + 1)) 0 ⟨0, []⟩ [] =
      (trace_from 0 (1 + 1), st', some ((env_429_once 1).body))) ∧
    (TwitchAPI.get_response (fun _ => ⟨429, none, none, 0⟩) 5 0 ⟨0, []⟩
      []).2.2 = none :=
  ⟨C6_retry_on_429.1 env_429_once 1 1 ⟨0, []⟩ (by decide) (by decide),
   C6_retry_on_429.2 (fun _ => ⟨429, none, none, 0⟩) (fun _ => rfl) 5 0
     ⟨0, []⟩ []⟩
